import Mathlib

/-!
Verification of the QEMU RISC-V CX (Composable Extensions) register-window
code (`target/riscv/cx.c`, `target/riscv/cx.h`) against its design
specification.

Part 1 embeds the eight CSR hook functions of `cx.c` exactly as written:
each is a `void` function that emits one trace event carrying
`(env->mhartid, reg_index, val)` and touches nothing else.  Machine words
(`target_ulong`, `uint32_t`, `uint64_t`) are modelled as `Nat`; no
arithmetic is performed on them anywhere in the code, so overflow never
matters.

Part 2 models the windowed indirection engine described by the design
document (selector/set-selector/index coordinates, extension registry,
data-register dispatch).  That engine is not part of the two files under
`target/riscv/`; those definitions are marked `Modelled from the spec:`.
-/

namespace CxSrc

/-- The trace events of `trace.h` that `cx.c` can emit, one constructor per
trace point, each carrying the `(mhartid, reg_index, val)` triple the C code
passes. -/
inductive TraceEvent where
  | cxsel_csr_read (mhartid reg_index val : Nat)
  | cxsel_csr_write (mhartid reg_index val : Nat)
  | cxsetsel_csr_read (mhartid reg_index val : Nat)
  | cxsetsel_csr_write (mhartid reg_index val : Nat)
  | cxidx_csr_read (mhartid reg_index val : Nat)
  | cxidx_csr_write (mhartid reg_index val : Nat)
  | cxdata_csr_read (mhartid reg_index val : Nat)
  | cxdata_csr_write (mhartid reg_index val : Nat)
  deriving DecidableEq, Repr

/-- The payload of a trace event, forgetting which trace point emitted it. -/
def TraceEvent.payload : TraceEvent → Nat × Nat × Nat
  | .cxsel_csr_read m r v => (m, r, v)
  | .cxsel_csr_write m r v => (m, r, v)
  | .cxsetsel_csr_read m r v => (m, r, v)
  | .cxsetsel_csr_write m r v => (m, r, v)
  | .cxidx_csr_read m r v => (m, r, v)
  | .cxidx_csr_write m r v => (m, r, v)
  | .cxdata_csr_read m r v => (m, r, v)
  | .cxdata_csr_write m r v => (m, r, v)

/-- `CPURISCVState` from `cpu.h` (outside the two CX files): the CX hooks
read only its `mhartid` field, so every other field is abstracted as a
single component `rest` of an arbitrary type `α`.  A hook that neither
reads nor writes any field but `mhartid` is then a function that returns
its input state unchanged and whose trace output depends on `α` only
through nothing at all. -/
structure CPURISCVState (α : Type) where
  mhartid : Nat
  rest : α

/-- Result of running one `void` hook from `cx.c`: the (possibly mutated)
CPU state together with the list of trace events emitted, in order. -/
abbrev HookResult (α : Type) := CPURISCVState α × List TraceEvent

/-- `cxsel_csr_read` from `cx.c`: `trace_cxsel_csr_read(env->mhartid,
reg_index, val);` and nothing else. -/
def cxsel_csr_read (env : CPURISCVState α) (reg_index val : Nat) :
    HookResult α :=
  (env, [TraceEvent.cxsel_csr_read env.mhartid reg_index val])

/-- `cxsel_csr_write` from `cx.c`. -/
def cxsel_csr_write (env : CPURISCVState α) (reg_index val : Nat) :
    HookResult α :=
  (env, [TraceEvent.cxsel_csr_write env.mhartid reg_index val])

/-- `cxsetsel_csr_read` from `cx.c`. -/
def cxsetsel_csr_read (env : CPURISCVState α) (reg_index val : Nat) :
    HookResult α :=
  (env, [TraceEvent.cxsetsel_csr_read env.mhartid reg_index val])

/-- `cxsetsel_csr_write` from `cx.c`. -/
def cxsetsel_csr_write (env : CPURISCVState α) (reg_index val : Nat) :
    HookResult α :=
  (env, [TraceEvent.cxsetsel_csr_write env.mhartid reg_index val])

/-- `cxidx_csr_read` from `cx.c`. -/
def cxidx_csr_read (env : CPURISCVState α) (reg_index val : Nat) :
    HookResult α :=
  (env, [TraceEvent.cxidx_csr_read env.mhartid reg_index val])

/-- `cxidx_csr_write` from `cx.c`. -/
def cxidx_csr_write (env : CPURISCVState α) (reg_index val : Nat) :
    HookResult α :=
  (env, [TraceEvent.cxidx_csr_write env.mhartid reg_index val])

/-- `cxdata_csr_read` from `cx.c`. -/
def cxdata_csr_read (env : CPURISCVState α) (reg_index val : Nat) :
    HookResult α :=
  (env, [TraceEvent.cxdata_csr_read env.mhartid reg_index val])

/-- `cxdata_csr_write` from `cx.c`. -/
def cxdata_csr_write (env : CPURISCVState α) (reg_index val : Nat) :
    HookResult α :=
  (env, [TraceEvent.cxdata_csr_write env.mhartid reg_index val])

end CxSrc

namespace CxSpec

/-- Modelled from the spec: the engine error taxonomy of §7.  The windowed
indirection engine itself is absent from `target/riscv/` (the two files
there hold only the trace hooks), so its data model follows the design
document. -/
inductive ErrorKind where
  | NoExtensionSelected
  | UnknownExtension
  | InvalidWindow
  | ExtensionFault (status : Nat)
  deriving DecidableEq, Repr

/-- Modelled from the spec: the status a module handler returns (§3, §4.3
step 5): `Ok`, `BadSetSelector`, `BadIndex`, or any other module-defined
status code. -/
inductive ExtStatus where
  | Ok
  | BadSetSelector
  | BadIndex
  | Other (status : Nat)
  deriving DecidableEq, Repr

/-- Modelled from the spec (§4.4): the register names an Observability
event can mention. -/
inductive RegName where
  | Selector
  | SetSelector
  | Index
  | Data
  deriving DecidableEq, Repr

/-- Modelled from the spec (§4.4): read or write access. -/
inductive AccessKind where
  | Read
  | Write
  deriving DecidableEq, Repr

/-- Modelled from the spec (§4.4): one Observability event, carrying hart
id, register name, access kind, the value involved (absent on a failed
read), and the outcome (`none` on success). -/
structure ObsEvent where
  hart : Nat
  reg : RegName
  kind : AccessKind
  value : Option Nat
  outcome : Option ErrorKind
  deriving DecidableEq, Repr

/-- Modelled from the spec (§3): per-hart window state holding the
last-written Selector, Set-Selector and Index values. -/
structure CxWindowState where
  selector : Nat
  set_selector : Nat
  index : Nat
  deriving DecidableEq, Repr

/-- Modelled from the spec (§3): hart state at hart initialization, all
fields zero. -/
def CxWindowState.init : CxWindowState := ⟨0, 0, 0⟩

/-- Modelled from the spec (§3, §4.1): the extension handler capability
pair.  Module-internal state (the registers behind the window) is embedded
by explicit state passing over a module state type `σ`: `read` is pure on
`σ`, `write` returns the updated module state alongside its status. -/
structure ExtensionHandler (σ : Type) where
  read : σ → Nat → Nat → Nat × ExtStatus
  write : σ → Nat → Nat → Nat → σ × ExtStatus

/-- Modelled from the spec (§4.1): the registry as seen from the hot path,
its pure total `lookup` from a Selector value to the handler bound to it
(`none` for absence). -/
def ExtensionRegistry (σ : Type) := Nat → Option (ExtensionHandler σ)

/-- Modelled from the spec (§4.3 step 5): translation of a handler status
into the engine outcome: `Ok` → success (`none`), `BadSetSelector` and
`BadIndex` → `InvalidWindow`, any other status → `ExtensionFault` with the
module's status code. -/
def ExtStatus.toOutcome : ExtStatus → Option ErrorKind
  | .Ok => none
  | .BadSetSelector => some .InvalidWindow
  | .BadIndex => some .InvalidWindow
  | .Other c => some (.ExtensionFault c)

/-- Outcome of a coordinate-register operation: the result, the new window
state, and the Observability events emitted. -/
structure CoordOutcome (α : Type) where
  result : Except ErrorKind α
  state : CxWindowState
  events : List ObsEvent

/-- Outcome of a Data-register operation: the result, the window state
after the access, the module state after the access, the Observability
events emitted, and instrumentation counters for registry lookups and
module handler invocations. -/
structure DataOutcome (σ : Type) (α : Type) where
  result : Except ErrorKind α
  state : CxWindowState
  modState : σ
  events : List ObsEvent
  lookups : Nat
  moduleCalls : Nat

/-- Modelled from the spec (§4.2): `write_selector(v)`, an unconditional
assignment that always succeeds and reports once. -/
def write_selector (hart : Nat) (st : CxWindowState) (v : Nat) :
    CoordOutcome Unit :=
  { result := .ok ()
    state := { st with selector := v }
    events := [⟨hart, .Selector, .Write, some v, none⟩] }

/-- Modelled from the spec (§4.2): `write_setselector(v)`. -/
def write_setselector (hart : Nat) (st : CxWindowState) (v : Nat) :
    CoordOutcome Unit :=
  { result := .ok ()
    state := { st with set_selector := v }
    events := [⟨hart, .SetSelector, .Write, some v, none⟩] }

/-- Modelled from the spec (§4.2): `write_index(v)`. -/
def write_index (hart : Nat) (st : CxWindowState) (v : Nat) :
    CoordOutcome Unit :=
  { result := .ok ()
    state := { st with index := v }
    events := [⟨hart, .Index, .Write, some v, none⟩] }

/-- Modelled from the spec (§4.2): `read_selector()`, a pure read that
always succeeds and reports once with the read value. -/
def read_selector (hart : Nat) (st : CxWindowState) : CoordOutcome Nat :=
  { result := .ok st.selector
    state := st
    events := [⟨hart, .Selector, .Read, some st.selector, none⟩] }

/-- Modelled from the spec (§4.2): `read_setselector()`. -/
def read_setselector (hart : Nat) (st : CxWindowState) : CoordOutcome Nat :=
  { result := .ok st.set_selector
    state := st
    events := [⟨hart, .SetSelector, .Read, some st.set_selector, none⟩] }

/-- Modelled from the spec (§4.2): `read_index()`. -/
def read_index (hart : Nat) (st : CxWindowState) : CoordOutcome Nat :=
  { result := .ok st.index
    state := st
    events := [⟨hart, .Index, .Read, some st.index, none⟩] }

/-- Modelled from the spec (§4.3): `write_data(hart_state, value)`.
Selector-zero check first, then registry lookup, then delegation to the
module handler with `(set_selector, index, value)`, then status
translation; exactly one Observability report on every branch. -/
def write_data (registry : ExtensionRegistry σ) (hart : Nat)
    (st : CxWindowState) (m : σ) (v : Nat) : DataOutcome σ Unit :=
  if st.selector = 0 then
    { result := .error .NoExtensionSelected
      state := st
      modState := m
      events := [⟨hart, .Data, .Write, some v, some .NoExtensionSelected⟩]
      lookups := 0
      moduleCalls := 0 }
  else
    match registry st.selector with
    | none =>
      { result := .error .UnknownExtension
        state := st
        modState := m
        events := [⟨hart, .Data, .Write, some v, some .UnknownExtension⟩]
        lookups := 1
        moduleCalls := 0 }
    | some h =>
      match (h.write m st.set_selector st.index v).2.toOutcome with
      | none =>
        { result := .ok ()
          state := st
          modState := (h.write m st.set_selector st.index v).1
          events := [⟨hart, .Data, .Write, some v, none⟩]
          lookups := 1
          moduleCalls := 1 }
      | some e =>
        { result := .error e
          state := st
          modState := (h.write m st.set_selector st.index v).1
          events := [⟨hart, .Data, .Write, some v, some e⟩]
          lookups := 1
          moduleCalls := 1 }

/-- Modelled from the spec (§4.3): `read_data(hart_state)`, symmetric to
`write_data` using `handler.read`; on success the obtained value is both
returned and reported, on failure no value is reported. -/
def read_data (registry : ExtensionRegistry σ) (hart : Nat)
    (st : CxWindowState) (m : σ) : DataOutcome σ Nat :=
  if st.selector = 0 then
    { result := .error .NoExtensionSelected
      state := st
      modState := m
      events := [⟨hart, .Data, .Read, none, some .NoExtensionSelected⟩]
      lookups := 0
      moduleCalls := 0 }
  else
    match registry st.selector with
    | none =>
      { result := .error .UnknownExtension
        state := st
        modState := m
        events := [⟨hart, .Data, .Read, none, some .UnknownExtension⟩]
        lookups := 1
        moduleCalls := 0 }
    | some h =>
      match (h.read m st.set_selector st.index).2.toOutcome with
      | none =>
        { result := .ok (h.read m st.set_selector st.index).1
          state := st
          modState := m
          events := [⟨hart, .Data, .Read, some (h.read m st.set_selector st.index).1, none⟩]
          lookups := 1
          moduleCalls := 1 }
      | some e =>
        { result := .error e
          state := st
          modState := m
          events := [⟨hart, .Data, .Read, none, some e⟩]
          lookups := 1
          moduleCalls := 1 }

/-- Modelled from the spec (§9): the closed set of register operations
dispatched through the engine. -/
inductive CxOp where
  | writeSelector (v : Nat)
  | writeSetSelector (v : Nat)
  | writeIndex (v : Nat)
  | readSelector
  | readSetSelector
  | readIndex
  | readData
  | writeData (v : Nat)
  deriving DecidableEq, Repr

/-- Whether an operation writes the Selector register. -/
def CxOp.writesSelector : CxOp → Bool
  | .writeSelector _ => true
  | _ => false

/-- State evolution (window state and module state) of one operation. -/
def runOp (registry : ExtensionRegistry σ) (hart : Nat) (op : CxOp)
    (s : CxWindowState × σ) : CxWindowState × σ :=
  match op with
  | .writeSelector v => ((write_selector hart s.1 v).state, s.2)
  | .writeSetSelector v => ((write_setselector hart s.1 v).state, s.2)
  | .writeIndex v => ((write_index hart s.1 v).state, s.2)
  | .readSelector => ((read_selector hart s.1).state, s.2)
  | .readSetSelector => ((read_setselector hart s.1).state, s.2)
  | .readIndex => ((read_index hart s.1).state, s.2)
  | .readData =>
    ((read_data registry hart s.1 s.2).state,
     (read_data registry hart s.1 s.2).modState)
  | .writeData v =>
    ((write_data registry hart s.1 s.2 v).state,
     (write_data registry hart s.1 s.2 v).modState)

/-- State evolution of a sequence of operations, first to last. -/
def runOps (registry : ExtensionRegistry σ) (hart : Nat) (ops : List CxOp)
    (s : CxWindowState × σ) : CxWindowState × σ :=
  ops.foldl (fun t op => runOp registry hart op t) s

end CxSpec

namespace CxSpec

/-- A Data-register read leaves the window state untouched on every
branch. -/
theorem read_data_state_eq (registry : ExtensionRegistry σ) (hart : Nat)
    (st : CxWindowState) (m : σ) :
    (read_data registry hart st m).state = st := by
  unfold read_data
  split
  · rfl
  · split
    · rfl
    · split <;> rfl

/-- A Data-register write leaves the window state untouched on every
branch. -/
theorem write_data_state_eq (registry : ExtensionRegistry σ) (hart : Nat)
    (st : CxWindowState) (m : σ) (v : Nat) :
    (write_data registry hart st m v).state = st := by
  unfold write_data
  split
  · rfl
  · split
    · rfl
    · split <;> rfl

/-- A Data-register read emits exactly one Observability event, for the
Data register of the given hart, on every branch; the event carries the
obtained value when the read succeeds and no value when it fails. -/
theorem read_data_events_single (registry : ExtensionRegistry σ)
    (hart : Nat) (st : CxWindowState) (m : σ) :
    ∃ e : ObsEvent, (read_data registry hart st m).events = [e] ∧
      e.hart = hart ∧ e.reg = .Data ∧ e.kind = .Read ∧
      e.value = (match (read_data registry hart st m).result with
        | .ok w => some w
        | .error _ => none) := by
  unfold read_data
  split
  · exact ⟨_, rfl, rfl, rfl, rfl, rfl⟩
  · split
    · exact ⟨_, rfl, rfl, rfl, rfl, rfl⟩
    · split <;> exact ⟨_, rfl, rfl, rfl, rfl, rfl⟩

/-- A Data-register write emits exactly one Observability event, for the
Data register of the given hart, carrying the written value, on every
branch. -/
theorem write_data_events_single (registry : ExtensionRegistry σ)
    (hart : Nat) (st : CxWindowState) (m : σ) (v : Nat) :
    ∃ e : ObsEvent, (write_data registry hart st m v).events = [e] ∧
      e.hart = hart ∧ e.reg = .Data ∧ e.kind = .Write ∧ e.value = some v := by
  unfold write_data
  split
  · exact ⟨_, rfl, rfl, rfl, rfl, rfl⟩
  · split
    · exact ⟨_, rfl, rfl, rfl, rfl, rfl⟩
    · split <;> exact ⟨_, rfl, rfl, rfl, rfl, rfl⟩

/-- An operation that is not a Selector write leaves the Selector value of
the window state unchanged. -/
theorem runOp_selector_eq (registry : ExtensionRegistry σ) (hart : Nat)
    (op : CxOp) (s : CxWindowState × σ)
    (h : op.writesSelector = false) :
    ((runOp registry hart op s).1).selector = s.1.selector := by
  cases op with
  | writeSelector v => simp [CxOp.writesSelector] at h
  | writeSetSelector v => rfl
  | writeIndex v => rfl
  | readSelector => rfl
  | readSetSelector => rfl
  | readIndex => rfl
  | readData => simp [runOp, read_data_state_eq]
  | writeData v => simp [runOp, write_data_state_eq]

/-- A sequence of operations none of which writes the Selector leaves the
Selector value of the window state unchanged. -/
theorem runOps_selector_eq (registry : ExtensionRegistry σ) (hart : Nat)
    (ops : List CxOp) (s : CxWindowState × σ)
    (h : ∀ op ∈ ops, op.writesSelector = false) :
    ((runOps registry hart ops s).1).selector = s.1.selector := by
  revert h
  induction ops generalizing s with
  | nil => intro h; rfl
  | cons op rest ih =>
    intro h
    have h1 : op.writesSelector = false := h op (List.mem_cons_self op rest)
    have h2 : ∀ x ∈ rest, CxOp.writesSelector x = false :=
      fun x hx => h x (List.mem_cons_of_mem op hx)
    have hstep : runOps registry hart (op :: rest) s =
        runOps registry hart rest (runOp registry hart op s) := rfl
    rw [hstep, ih (runOp registry hart op s) h2,
      runOp_selector_eq registry hart op s h1]

/-- A concrete single-cell extension module used as a witness: the module
state is one `Nat` cell, reads return the cell, writes store the written
value, and every access reports `Ok`. -/
def cellHandler : ExtensionHandler Nat :=
  ⟨fun m _ _ => (m, .Ok), fun _ _ _ w => (w, .Ok)⟩

/-- A concrete registry binding Selector value 5 to `cellHandler` and
nothing else. -/
def cellRegistry : ExtensionRegistry Nat :=
  fun n => if n = 5 then some cellHandler else none

/-- A concrete empty registry over a trivial module state, used as a
witness. -/
def emptyRegistry : ExtensionRegistry Unit :=
  fun _ => none

end CxSpec

open CxSrc CxSpec

/-- C1: for every registry, hart, set-selector, index and value, a
Data-register access (read or write) performed while the current Selector
is 0 fails with `NoExtensionSelected`, the registry is consulted zero
times, and no module handler is invoked. -/
theorem C1_zero_selector_gate {σ : Type} (registry : ExtensionRegistry σ)
    (hart : Nat) (st : CxWindowState) (m : σ) (v : Nat)
    (h0 : st.selector = 0) :
    (read_data registry hart st m).result = .error .NoExtensionSelected ∧
    (read_data registry hart st m).lookups = 0 ∧
    (read_data registry hart st m).moduleCalls = 0 ∧
    (write_data registry hart st m v).result = .error .NoExtensionSelected ∧
    (write_data registry hart st m v).lookups = 0 ∧
    (write_data registry hart st m v).moduleCalls = 0 := by
  refine ⟨?_, ?_, ?_, ?_, ?_, ?_⟩ <;> simp [read_data, write_data, h0]

/-- Witness for C1: the zero-selector state `⟨0, 1, 2⟩` over the empty
registry. -/
theorem C1_zero_selector_gate_witness :
    (⟨0, 1, 2⟩ : CxWindowState).selector = 0 ∧
    ((read_data emptyRegistry 0 ⟨0, 1, 2⟩ ()).result
        = .error .NoExtensionSelected ∧
      (read_data emptyRegistry 0 ⟨0, 1, 2⟩ ()).lookups = 0 ∧
      (read_data emptyRegistry 0 ⟨0, 1, 2⟩ ()).moduleCalls = 0 ∧
      (write_data emptyRegistry 0 ⟨0, 1, 2⟩ () 5).result
        = .error .NoExtensionSelected ∧
      (write_data emptyRegistry 0 ⟨0, 1, 2⟩ () 5).lookups = 0 ∧
      (write_data emptyRegistry 0 ⟨0, 1, 2⟩ () 5).moduleCalls = 0) :=
  ⟨rfl, C1_zero_selector_gate emptyRegistry 0 ⟨0, 1, 2⟩ () 5 rfl⟩

/-- C2: reading the Selector register after writing `v` to it, with any
sequence of operations in between that does not write the Selector,
returns exactly `v`, for every representable `v` including 0 and every
starting state (hence after every earlier write sequence). -/
theorem C2_selector_persistence {σ : Type} (registry : ExtensionRegistry σ)
    (hart : Nat) (s : CxWindowState × σ) (v : Nat) (post : List CxOp)
    (hpost : ∀ op ∈ post, op.writesSelector = false) :
    (read_selector hart
        (runOps registry hart post
          (runOp registry hart (.writeSelector v) s)).1).result = .ok v := by
  have h1 := runOps_selector_eq registry hart post
    (runOp registry hart (.writeSelector v) s) hpost
  have h2 : ((runOp registry hart (.writeSelector v) s).1).selector = v := rfl
  simp [read_selector, h1, h2]

/-- Witness for C2: write Selector 7 from state `⟨1, 1, 1⟩`, then write
Index 2, read Data and write Data 3 (none of which writes the Selector),
then read Selector; the result is 7. -/
theorem C2_selector_persistence_witness :
    (∀ op ∈ [CxOp.writeIndex 2, CxOp.readData, CxOp.writeData 3],
      op.writesSelector = false) ∧
    (read_selector 0
        (runOps emptyRegistry 0 [CxOp.writeIndex 2, CxOp.readData, CxOp.writeData 3]
          (runOp emptyRegistry 0 (.writeSelector 7) (⟨1, 1, 1⟩, ()))).1).result
      = .ok 7 :=
  ⟨by decide,
    C2_selector_persistence emptyRegistry 0 (⟨1, 1, 1⟩, ()) 7
      [CxOp.writeIndex 2, CxOp.readData, CxOp.writeData 3] (by decide)⟩

/-- C3: for a registered module whose handler satisfies
write-then-read-returns-v at `(s, i, v)`, the sequence
`write_selector sel; write_setselector s; write_index i` puts the
coordinates at `(sel, s, i)` with the module untouched, the following
`write_data v` succeeds, and the following `read_data` with the
coordinates unchanged succeeds returning `v`. -/
theorem C3_round_trip {σ : Type} (registry : ExtensionRegistry σ)
    (hart sel s i v : Nat) (st0 : CxWindowState) (m : σ)
    (h : ExtensionHandler σ)
    (hsel : sel ≠ 0) (hreg : registry sel = some h)
    (hw : (h.write m s i v).2 = .Ok)
    (hr : h.read (h.write m s i v).1 s i = (v, .Ok)) :
    runOps registry hart
      [.writeSelector sel, .writeSetSelector s, .writeIndex i] (st0, m)
      = (⟨sel, s, i⟩, m) ∧
    (write_data registry hart ⟨sel, s, i⟩ m v).result = .ok () ∧
    (read_data registry hart
        (write_data registry hart ⟨sel, s, i⟩ m v).state
        (write_data registry hart ⟨sel, s, i⟩ m v).modState).result
      = .ok v := by
  refine ⟨rfl, ?_, ?_⟩
  · simp [write_data, hsel, hreg, hw, ExtStatus.toOutcome]
  · have hst : (write_data registry hart ⟨sel, s, i⟩ m v).state
        = (⟨sel, s, i⟩ : CxWindowState) :=
      write_data_state_eq registry hart ⟨sel, s, i⟩ m v
    have hm : (write_data registry hart ⟨sel, s, i⟩ m v).modState
        = (h.write m s i v).1 := by
      simp [write_data, hsel, hreg, hw, ExtStatus.toOutcome]
    rw [hst, hm]
    simp [read_data, hsel, hreg, hr, ExtStatus.toOutcome]

/-- Witness for C3: the single-cell module registered at Selector 5,
coordinates `(1, 2)`, value 66. -/
theorem C3_round_trip_witness :
    (5 : Nat) ≠ 0 ∧
    cellRegistry 5 = some cellHandler ∧
    (cellHandler.write 0 1 2 66).2 = .Ok ∧
    cellHandler.read (cellHandler.write 0 1 2 66).1 1 2 = (66, .Ok) ∧
    (runOps cellRegistry 0
        [.writeSelector 5, .writeSetSelector 1, .writeIndex 2] (⟨0, 0, 0⟩, 0)
        = (⟨5, 1, 2⟩, 0) ∧
      (write_data cellRegistry 0 ⟨5, 1, 2⟩ 0 66).result = .ok () ∧
      (read_data cellRegistry 0
          (write_data cellRegistry 0 ⟨5, 1, 2⟩ 0 66).state
          (write_data cellRegistry 0 ⟨5, 1, 2⟩ 0 66).modState).result
        = .ok 66) :=
  ⟨by decide, rfl, rfl, rfl,
    C3_round_trip cellRegistry 0 5 1 2 66 ⟨0, 0, 0⟩ 0 cellHandler
      (by decide) rfl rfl rfl⟩

/-- C4: for every non-zero Selector value with no handler registered, both
a Data-register read and a Data-register write fail with
`UnknownExtension` and invoke no module handler. -/
theorem C4_unknown_selector_gate {σ : Type} (registry : ExtensionRegistry σ)
    (hart : Nat) (st : CxWindowState) (m : σ) (v : Nat)
    (h0 : st.selector ≠ 0) (habs : registry st.selector = none) :
    (read_data registry hart st m).result = .error .UnknownExtension ∧
    (read_data registry hart st m).moduleCalls = 0 ∧
    (write_data registry hart st m v).result = .error .UnknownExtension ∧
    (write_data registry hart st m v).moduleCalls = 0 := by
  refine ⟨?_, ?_, ?_, ?_⟩ <;> simp [read_data, write_data, h0, habs]

/-- Witness for C4: Selector 9 over the empty registry. -/
theorem C4_unknown_selector_gate_witness :
    (⟨9, 0, 0⟩ : CxWindowState).selector ≠ 0 ∧
    emptyRegistry (⟨9, 0, 0⟩ : CxWindowState).selector = none ∧
    ((read_data emptyRegistry 0 ⟨9, 0, 0⟩ ()).result
        = .error .UnknownExtension ∧
      (read_data emptyRegistry 0 ⟨9, 0, 0⟩ ()).moduleCalls = 0 ∧
      (write_data emptyRegistry 0 ⟨9, 0, 0⟩ () 1).result
        = .error .UnknownExtension ∧
      (write_data emptyRegistry 0 ⟨9, 0, 0⟩ () 1).moduleCalls = 0) :=
  ⟨by decide, rfl,
    C4_unknown_selector_gate emptyRegistry 0 ⟨9, 0, 0⟩ () 1 (by decide) rfl⟩

/-- C5: for every hart state and every Data-register access, read or
write, successful or failed, the window state (its Selector, Set-Selector
and Index values) after the access equals the window state before it. -/
theorem C5_coordinates_unchanged {σ : Type} (registry : ExtensionRegistry σ)
    (hart : Nat) (st : CxWindowState) (m : σ) (v : Nat) :
    (read_data registry hart st m).state = st ∧
    (write_data registry hart st m v).state = st :=
  ⟨read_data_state_eq registry hart st m,
    write_data_state_eq registry hart st m v⟩

/-- C6: every one of the eight register operations, whether it succeeds or
fails, emits exactly one Observability event carrying the hart id, the
register concerned and the value involved (for the Data read, the value
obtained on success and absent on failure). -/
theorem C6_single_report {σ : Type} (registry : ExtensionRegistry σ)
    (hart : Nat) (st : CxWindowState) (m : σ) (v : Nat) :
    (write_selector hart st v).events
      = [⟨hart, .Selector, .Write, some v, none⟩] ∧
    (read_selector hart st).events
      = [⟨hart, .Selector, .Read, some st.selector, none⟩] ∧
    (write_setselector hart st v).events
      = [⟨hart, .SetSelector, .Write, some v, none⟩] ∧
    (read_setselector hart st).events
      = [⟨hart, .SetSelector, .Read, some st.set_selector, none⟩] ∧
    (write_index hart st v).events
      = [⟨hart, .Index, .Write, some v, none⟩] ∧
    (read_index hart st).events
      = [⟨hart, .Index, .Read, some st.index, none⟩] ∧
    (∃ e, (read_data registry hart st m).events = [e] ∧
      e.hart = hart ∧ e.reg = .Data ∧ e.kind = .Read ∧
      e.value = (match (read_data registry hart st m).result with
        | .ok w => some w
        | .error _ => none)) ∧
    (∃ e, (write_data registry hart st m v).events = [e] ∧
      e.hart = hart ∧ e.reg = .Data ∧ e.kind = .Write ∧ e.value = some v) :=
  ⟨rfl, rfl, rfl, rfl, rfl, rfl,
    read_data_events_single registry hart st m,
    write_data_events_single registry hart st m v⟩

/-- C7: the three coordinate-register writes are infallible: for every
value they succeed, perform the unconditional assignment of the value to
their field, and emit exactly one Observability report. -/
theorem C7_coordinate_writes_infallible (hart : Nat) (st : CxWindowState)
    (v : Nat) :
    (write_selector hart st v).result = .ok () ∧
    (write_selector hart st v).state = { st with selector := v } ∧
    (write_selector hart st v).events.length = 1 ∧
    (write_setselector hart st v).result = .ok () ∧
    (write_setselector hart st v).state = { st with set_selector := v } ∧
    (write_setselector hart st v).events.length = 1 ∧
    (write_index hart st v).result = .ok () ∧
    (write_index hart st v).state = { st with index := v } ∧
    (write_index hart st v).events.length = 1 :=
  ⟨rfl, rfl, rfl, rfl, rfl, rfl, rfl, rfl, rfl⟩

/-- C8: when a Data-register access reaches a registered handler, the
handler status is translated deterministically: `Ok` to success,
`BadSetSelector` and `BadIndex` to `InvalidWindow` with no further
detail, and any other module-defined status to `ExtensionFault` carrying
the module's status code. -/
theorem C8_status_translation {σ : Type} (registry : ExtensionRegistry σ)
    (hart : Nat) (st : CxWindowState) (m : σ) (v : Nat)
    (h : ExtensionHandler σ)
    (h0 : st.selector ≠ 0) (hreg : registry st.selector = some h) :
    (write_data registry hart st m v).result =
      (match (h.write m st.set_selector st.index v).2 with
        | .Ok => .ok ()
        | .BadSetSelector => .error .InvalidWindow
        | .BadIndex => .error .InvalidWindow
        | .Other c => .error (.ExtensionFault c)) ∧
    (read_data registry hart st m).result =
      (match (h.read m st.set_selector st.index).2 with
        | .Ok => .ok (h.read m st.set_selector st.index).1
        | .BadSetSelector => .error .InvalidWindow
        | .BadIndex => .error .InvalidWindow
        | .Other c => .error (.ExtensionFault c)) := by
  constructor
  · cases hs : (h.write m st.set_selector st.index v).2 <;>
      simp [write_data, h0, hreg, hs, ExtStatus.toOutcome]
  · cases hs : (h.read m st.set_selector st.index).2 <;>
      simp [read_data, h0, hreg, hs, ExtStatus.toOutcome]

/-- Witness for C8: the single-cell module registered at Selector 5, whose
`Ok` statuses translate to success on both accesses. -/
theorem C8_status_translation_witness :
    (⟨5, 1, 2⟩ : CxWindowState).selector ≠ 0 ∧
    cellRegistry (⟨5, 1, 2⟩ : CxWindowState).selector = some cellHandler ∧
    ((write_data cellRegistry 0 ⟨5, 1, 2⟩ 7 66).result =
        (match (cellHandler.write 7 1 2 66).2 with
          | .Ok => .ok ()
          | .BadSetSelector => .error .InvalidWindow
          | .BadIndex => .error .InvalidWindow
          | .Other c => .error (.ExtensionFault c)) ∧
      (read_data cellRegistry 0 ⟨5, 1, 2⟩ 7).result =
        (match (cellHandler.read 7 1 2).2 with
          | .Ok => .ok (cellHandler.read 7 1 2).1
          | .BadSetSelector => .error .InvalidWindow
          | .BadIndex => .error .InvalidWindow
          | .Other c => .error (.ExtensionFault c))) :=
  ⟨by decide, rfl,
    C8_status_translation cellRegistry 0 ⟨5, 1, 2⟩ 7 66 cellHandler
      (by decide) rfl⟩

/-- C9: each of the eight CSR hook functions of `cx.c` returns the CPU
state unchanged and emits exactly the one trace event built from
`env.mhartid`, `reg_index` and `val`; the state is arbitrary in every
field except `mhartid`, so no field of `CPURISCVState` is written and the
emitted event reads only `mhartid`. -/
theorem C9_hooks_frame {α : Type} (env : CPURISCVState α)
    (reg_index val : Nat) :
    cxsel_csr_read env reg_index val
      = (env, [.cxsel_csr_read env.mhartid reg_index val]) ∧
    cxsel_csr_write env reg_index val
      = (env, [.cxsel_csr_write env.mhartid reg_index val]) ∧
    cxsetsel_csr_read env reg_index val
      = (env, [.cxsetsel_csr_read env.mhartid reg_index val]) ∧
    cxsetsel_csr_write env reg_index val
      = (env, [.cxsetsel_csr_write env.mhartid reg_index val]) ∧
    cxidx_csr_read env reg_index val
      = (env, [.cxidx_csr_read env.mhartid reg_index val]) ∧
    cxidx_csr_write env reg_index val
      = (env, [.cxidx_csr_write env.mhartid reg_index val]) ∧
    cxdata_csr_read env reg_index val
      = (env, [.cxdata_csr_read env.mhartid reg_index val]) ∧
    cxdata_csr_write env reg_index val
      = (env, [.cxdata_csr_write env.mhartid reg_index val]) :=
  ⟨rfl, rfl, rfl, rfl, rfl, rfl, rfl, rfl⟩

/-- C10: for each of the four CX registers, the read hook and the write
hook of `cx.c` agree on the resulting CPU state and on the payload
`(mhartid, reg_index, val)` of the single emitted trace event, differing
only in the trace event's name; neither produces a register value for the
caller. -/
theorem C10_read_write_hooks_symmetric {α : Type} (env : CPURISCVState α)
    (reg_index val : Nat) :
    ((cxsel_csr_read env reg_index val).1
        = (cxsel_csr_write env reg_index val).1 ∧
      (cxsel_csr_read env reg_index val).2.map TraceEvent.payload
        = (cxsel_csr_write env reg_index val).2.map TraceEvent.payload) ∧
    ((cxsetsel_csr_read env reg_index val).1
        = (cxsetsel_csr_write env reg_index val).1 ∧
      (cxsetsel_csr_read env reg_index val).2.map TraceEvent.payload
        = (cxsetsel_csr_write env reg_index val).2.map TraceEvent.payload) ∧
    ((cxidx_csr_read env reg_index val).1
        = (cxidx_csr_write env reg_index val).1 ∧
      (cxidx_csr_read env reg_index val).2.map TraceEvent.payload
        = (cxidx_csr_write env reg_index val).2.map TraceEvent.payload) ∧
    ((cxdata_csr_read env reg_index val).1
        = (cxdata_csr_write env reg_index val).1 ∧
      (cxdata_csr_read env reg_index val).2.map TraceEvent.payload
        = (cxdata_csr_write env reg_index val).2.map TraceEvent.payload) :=
  ⟨⟨rfl, rfl⟩, ⟨rfl, rfl⟩, ⟨rfl, rfl⟩, ⟨rfl, rfl⟩⟩
